import Mathlib

/-!
Shallow embedding of the fuel-cell visualization script
(src/fuel_cell_3D.py).  Python floats are modelled as exact rationals;
the five slider controls become a `Controls` record.  The unseeded
global NumPy random stream and the seeded `RandomState` draw are
modelled as explicit function parameters (`g`, `rand0`): the program
text consumes them exactly where the script calls the corresponding
NumPy functions.
-/

namespace FuelCell

/-- The five simulation sliders plus the animation-speed slider
(src lines 20-25). -/
structure Controls where
  hydrogenLevel : ℚ
  oxygenLevel : ℚ
  temperatureC : ℚ
  voltage : ℚ
  pressureAtm : ℚ
  animationSpeed : ℚ
  deriving DecidableEq

/-- The slider ranges of src lines 20-25 (temperature and speed are
integer sliders; their values lie in these intervals). -/
def Controls.Valid (c : Controls) : Prop :=
  1/10 ≤ c.hydrogenLevel ∧ c.hydrogenLevel ≤ 2 ∧
  1/10 ≤ c.oxygenLevel ∧ c.oxygenLevel ≤ 2 ∧
  20 ≤ c.temperatureC ∧ c.temperatureC ≤ 120 ∧
  1/2 ≤ c.voltage ∧ c.voltage ≤ 12/10 ∧
  1/2 ≤ c.pressureAtm ∧ c.pressureAtm ≤ 3 ∧
  1 ≤ c.animationSpeed ∧ c.animationSpeed ≤ 10

instance (c : Controls) : Decidable c.Valid := by
  unfold Controls.Valid; infer_instance

/-- Slider defaults (src lines 20-25): H2=1.0, O2=1.0, T=60, V=0.8,
P=1.0, speed=4. -/
def defaultControls : Controls :=
  ⟨1, 1, 60, 8/10, 1, 4⟩

/-- src line 32:
rate = (H2 * 0.6 + O2 * 0.4) * (1 + (Temperature - 25) / 300) * Pressure -/
def rate (c : Controls) : ℚ :=
  (c.hydrogenLevel * (6/10) + c.oxygenLevel * (4/10)) *
    (1 + (c.temperatureC - 25) / 300) * c.pressureAtm

/-- src line 34:
current_density = max(0.01, rate * (Voltage / 1.0) * 0.5) -/
def current_density (c : Controls) : ℚ :=
  max (1/100) (rate c * (c.voltage / 1) * (1/2))

/-- src line 35: power = current_density * Voltage * 50 -/
def power (c : Controls) : ℚ :=
  current_density c * c.voltage * 50

/-- The reaction-rate formula as the spec writes it:
reactionRate = (hydrogenLevel*0.6 + oxygenLevel*0.4) *
(1 + (temperatureC-25)/300) * pressureAtm. -/
def reactionRate_spec (c : Controls) : ℚ :=
  (c.hydrogenLevel * (6/10) + c.oxygenLevel * (4/10)) *
    (1 + (c.temperatureC - 25) / 300) * c.pressureAtm

/-- The current-density formula as the spec writes it:
currentDensity = max(0.01, reactionRate * voltage * 0.5), the voltage
used directly (reference 1.0). -/
def currentDensity_spec (c : Controls) : ℚ :=
  max (1/100) (reactionRate_spec c * c.voltage * (1/2))

/-- A Mesh3d payload as built by create_box (src lines 38-46):
vertex coordinate lists x, y, z and triangle vertex-index lists
i, j, k. -/
structure Box where
  x : List ℚ
  y : List ℚ
  z : List ℚ
  i : List ℕ
  j : List ℕ
  k : List ℕ
  color : String
  deriving DecidableEq

/-- src lines 38-46: the box-to-mesh conversion.  The index lists are
the literal lists of the source. -/
def create_box (x0 x1 y0 y1 z0 z1 : ℚ) (color : String) : Box :=
  { x := [x0, x1, x1, x0, x0, x1, x1, x0]
    y := [y0, y0, y1, y1, y0, y0, y1, y1]
    z := [z0, z0, z0, z0, z1, z1, z1, z1]
    i := [0, 0, 0, 4, 4, 4, 1, 2, 5, 6, 1, 5]
    j := [1, 2, 3, 5, 6, 7, 5, 6, 6, 7, 4, 2]
    k := [2, 3, 0, 6, 7, 4, 2, 3, 7, 4, 5, 6]
    color := color }

/-- The 12 triangles of a box mesh as index triples (zipping the
i, j, k lists of create_box; they do not depend on the bounds). -/
def mesh_faces (b : Box) : List (ℕ × ℕ × ℕ) :=
  b.i.zip (b.j.zip b.k)

/-- src line 49. -/
def anode : Box := create_box (-2) (-1/2) (-8/10) (8/10) (-1/2) (1/2) "lightskyblue"

/-- src line 50. -/
def membrane : Box := create_box (-4/10) (4/10) (-9/10) (9/10) (-1/2) (1/2) "white"

/-- src line 51. -/
def cathode : Box := create_box (1/2) 2 (-8/10) (8/10) (-1/2) (1/2) "lightcoral"

/-- np.linspace(a, b, n): the sample at index idx, a + (b-a)*idx/(n-1). -/
def linspace (a b : ℚ) (n : ℕ) (idx : ℕ) : ℚ :=
  a + (b - a) * idx / (n - 1)

/-- src line 75: t = np.linspace(0, 1, 12, endpoint=False), the k-th
particle parameter k/12. -/
def particle_t (k : ℕ) : ℚ := k / 12

/-- Python float mod 1.0 (x % 1.0): x - floor x, always in [0,1). -/
def pymod1 (x : ℚ) : ℚ := Int.fract x

/-- src lines 77-80 phase: ph = (t_vals * speed_factor) % 1.0. -/
def electron_ph (tv sf : ℚ) : ℚ := pymod1 (tv * sf)

/-- src line 80 index: idx = (ph * (len(wire_x)-1)).astype(int), with
len(wire_x) = 40; astype(int) truncates toward zero and ph is
non-negative, so this is the floor. -/
def electron_idx (tv sf : ℚ) : ℕ := (⌊electron_ph tv sf * 39⌋).toNat

/-- src line 84: proton_x = np.linspace(-0.4, 0.4, 40). -/
def proton_x (idx : ℕ) : ℚ := linspace (-4/10) (4/10) 40 idx

/-- src line 85: proton_y = np.zeros_like(proton_x). -/
def proton_y (_idx : ℕ) : ℚ := 0

/-- src line 86: proton_z = np.linspace(-0.3, 0.3, 40). -/
def proton_z (idx : ℕ) : ℚ := linspace (-3/10) (3/10) 40 idx

/-- np.interp(v, np.linspace(0,1,n), fp) for an n-point table fp:
clamp outside [0,1], otherwise linear interpolation on the segment
containing v. -/
def np_interp (fp : ℕ → ℚ) (n : ℕ) (v : ℚ) : ℚ :=
  if v ≤ 0 then fp 0
  else if 1 ≤ v then fp (n - 1)
  else
    let seg : ℕ := (⌊v * (n - 1)⌋).toNat
    fp seg + (fp (seg + 1) - fp seg) * (v * (n - 1) - seg)

/-- Python int() (truncation toward zero) on a rational. -/
def pytrunc (q : ℚ) : ℤ := if 0 ≤ q then ⌊q⌋ else -⌊-q⌋

/-- src line 137:
seed = int((H2 + O2 + Temperature + Voltage + Pressure) * 1000) % 2**31. -/
def seed (c : Controls) : ℤ :=
  pytrunc ((c.hydrogenLevel + c.oxygenLevel + c.temperatureC +
            c.voltage + c.pressureAtm) * 1000) % 2 ^ 31

/-- src line 140:
electron_speed = max(1.0, speed * (1 + rate/4.0)). -/
def electron_speed (c : Controls) : ℚ :=
  max 1 (c.animationSpeed * (1 + rate c / 4))

/-- src line 141: t_shift = rng.rand() * 0.5 where
rng = np.random.RandomState(seed).  The first uniform draw of a
RandomState is a fixed function of its seed; rand0 models that
function. -/
def t_shift (rand0 : ℤ → ℚ) (c : Controls) : ℚ :=
  rand0 (seed c) * (1/2)

/-- src line 66: theta = np.linspace(-pi/2, pi/2, 40). -/
noncomputable def wire_theta (idx : ℕ) : ℝ :=
  -(Real.pi / 2) + Real.pi * idx / 39

/-- src line 67: wire_x = 1.2 * np.cos(theta). -/
noncomputable def wire_x (idx : ℕ) : ℝ :=
  (12/10) * Real.cos (wire_theta idx)

/-- src line 68: wire_y = 1.6 * np.sin(theta) * 0.4. -/
noncomputable def wire_y (idx : ℕ) : ℝ :=
  (16/10) * Real.sin (wire_theta idx) * (4/10)

/-- src line 69: wire_z = np.full_like(theta, 0.9). -/
noncomputable def wire_z (_idx : ℕ) : ℝ := 9/10

/-- src lines 77-81: electron_positions(t_vals, speed_factor) for one
particle parameter tv: the wire sample at the snapped index. -/
noncomputable def electron_positions (tv sf : ℚ) : ℝ × ℝ × ℝ :=
  (wire_x (electron_idx tv sf), wire_y (electron_idx tv sf),
   wire_z (electron_idx tv sf))

/-- src lines 98-100: the oxygen cloud.  np.random.normal(loc, scale, 10)
is loc + scale * z for standard-normal draws z taken from the UNSEEDED
global NumPy stream; g k is the k-th draw of that stream (x uses draws
0-9, y draws 10-19, z draws 20-29). -/
def ox_cloud (g : ℕ → ℚ) : List (ℚ × ℚ × ℚ) :=
  (List.range 10).map fun k =>
    (14/10 + (8/100) * g k, 0 + (3/10) * g (10 + k),
     2/10 + (5/100) * g (20 + k))

/-- The particle geometry of the final rendered figure (fig3):
electron markers (src line 143/153), proton markers (src lines
154-157) and the oxygen cloud (src lines 98-101, reused unchanged). -/
structure Scene where
  electrons : List (ℝ × ℝ × ℝ)
  protons : List (ℚ × ℚ × ℚ)
  oxygen : List (ℚ × ℚ × ℚ)

/-- The scene-building computation: rand0 models the seeded
RandomState draw (src line 141), g the unseeded global stream
(src lines 98-100).  Electrons: electron_positions((t + t_shift) % 1.0,
electron_speed); protons: np.interp(((t + t_shift) % 1.0), ...) over
the 40-point channel. -/
noncomputable def buildScene (rand0 : ℤ → ℚ) (g : ℕ → ℚ) (c : Controls) : Scene :=
  { electrons := (List.range 12).map fun k =>
      electron_positions (pymod1 (particle_t k + t_shift rand0 c))
        (electron_speed c)
    protons := (List.range 12).map fun k =>
      (np_interp proton_x 40 (pymod1 (particle_t k + t_shift rand0 c)),
       np_interp proton_y 40 (pymod1 (particle_t k + t_shift rand0 c)),
       np_interp proton_z 40 (pymod1 (particle_t k + t_shift rand0 c)))
    oxygen := ox_cloud g }

/-- The proton positions as claim C8 describes them: interpolated at
the SAME wrapped phases as the electrons, i.e. the particle phases
additionally scaled by the electron speed factor and wrapped mod 1. -/
def protons_claimC8 (rand0 : ℤ → ℚ) (c : Controls) : List (ℚ × ℚ × ℚ) :=
  (List.range 12).map fun k =>
    (np_interp proton_x 40
       (electron_ph (pymod1 (particle_t k + t_shift rand0 c))
         (electron_speed c)),
     np_interp proton_y 40
       (electron_ph (pymod1 (particle_t k + t_shift rand0 c))
         (electron_speed c)),
     np_interp proton_z 40
       (electron_ph (pymod1 (particle_t k + t_shift rand0 c))
         (electron_speed c)))

/-- Concrete Controls of the spec's second scenario:
hydrogen=0.1, oxygen=0.1, temp=20, voltage=0.5, pressure=0.5
(animation speed at its minimum, 1; the scenario does not involve it). -/
def scenario2 : Controls :=
  ⟨1/10, 1/10, 20, 1/2, 1/2, 1⟩

/-!  Helper lemmas. -/

/-- np.interp over a 40-point table whose entries are affine in the
index is the affine map itself on [0,1): the segment index drops out
of the algebra. -/
theorem np_interp_affine (fp : ℕ → ℚ) (a b v : ℚ)
    (hfp : ∀ idx : ℕ, fp idx = a + (b - a) * idx / 39)
    (h0 : 0 ≤ v) (h1 : v < 1) :
    np_interp fp 40 v = a + (b - a) * v := by
  unfold np_interp
  by_cases hv0 : v ≤ 0
  · have : v = 0 := le_antisymm hv0 h0
    subst this
    simp [hfp 0]
  · have hv1 : ¬ (1 ≤ v) := by linarith
    simp only [hv0, hv1, if_false]
    rw [hfp, hfp]
    push_cast
    ring

/-- pymod1 always lands in [0, 1). -/
theorem pymod1_mem (x : ℚ) : 0 ≤ pymod1 x ∧ pymod1 x < 1 :=
  ⟨Int.fract_nonneg x, Int.fract_lt_one x⟩

/-!  Claim theorems. -/

/-- C1: for every Controls value, the computed reaction rate equals
(hydrogenLevel*0.6 + oxygenLevel*0.4) * (1 + (temperatureC-25)/300) *
pressureAtm exactly. -/
theorem C1_rate_eq_spec_formula (c : Controls) :
    rate c = reactionRate_spec c := rfl

/-- C2: for every Controls value, the computed current density equals
max(0.01, reactionRate * voltage * 0.5), the voltage divided by a
reference of 1.0, i.e. used directly. -/
theorem C2_current_density_eq_spec_formula (c : Controls) :
    current_density c = currentDensity_spec c := by
  unfold current_density currentDensity_spec rate reactionRate_spec
  rw [div_one]

/-- C4: for every Controls value inside the documented slider ranges,
reactionRate >= 0, currentDensity >= 0.01 and power >= 0. -/
theorem C4_readouts_nonneg (c : Controls) (hv : c.Valid) :
    0 ≤ rate c ∧ 1/100 ≤ current_density c ∧ 0 ≤ power c := by
  obtain ⟨h1, h2, h3, h4, h5, h6, h7, h8, h9, h10, h11, h12⟩ := hv
  have hA : 0 ≤ c.hydrogenLevel * (6/10) + c.oxygenLevel * (4/10) := by nlinarith
  have hT : 0 ≤ 1 + (c.temperatureC - 25) / 300 := by linarith
  have hP : (0:ℚ) ≤ c.pressureAtm := by linarith
  have hrate : 0 ≤ rate c := by
    unfold rate
    exact mul_nonneg (mul_nonneg hA hT) hP
  have hcd : 1/100 ≤ current_density c := le_max_left _ _
  refine ⟨hrate, hcd, ?_⟩
  have hcd0 : (0:ℚ) ≤ current_density c := le_trans (by norm_num) hcd
  have hV : (0:ℚ) ≤ c.voltage := by linarith
  unfold power
  positivity

/-- C4 witness: the default slider values are valid and the three
inequalities hold there. -/
theorem C4_witness :
    defaultControls.Valid ∧
      (0 ≤ rate defaultControls ∧ 1/100 ≤ current_density defaultControls ∧
       0 ≤ power defaultControls) :=
  ⟨by norm_num [Controls.Valid, defaultControls],
   C4_readouts_nonneg defaultControls
     (by norm_num [Controls.Valid, defaultControls])⟩

/-- C5: for valid Controls, raising hydrogenLevel, oxygenLevel or
pressureAtm (each with every other field held fixed) never decreases
the reaction rate. -/
theorem C5_rate_monotone (c : Controls) (hv : c.Valid) (h o p : ℚ)
    (hh : c.hydrogenLevel ≤ h) (ho : c.oxygenLevel ≤ o)
    (hp : c.pressureAtm ≤ p) :
    rate c ≤ rate { c with hydrogenLevel := h } ∧
    rate c ≤ rate { c with oxygenLevel := o } ∧
    rate c ≤ rate { c with pressureAtm := p } := by
  obtain ⟨h1, h2, h3, h4, h5, h6, h7, h8, h9, h10, h11, h12⟩ := hv
  have hT : 0 ≤ 1 + (c.temperatureC - 25) / 300 := by linarith
  have hP : (0:ℚ) ≤ c.pressureAtm := by linarith
  have hA : 0 ≤ c.hydrogenLevel * (6/10) + c.oxygenLevel * (4/10) := by nlinarith
  unfold rate
  refine ⟨?_, ?_, ?_⟩
  · simp only
    exact mul_le_mul_of_nonneg_right
      (mul_le_mul_of_nonneg_right (by linarith) hT) hP
  · simp only
    exact mul_le_mul_of_nonneg_right
      (mul_le_mul_of_nonneg_right (by linarith) hT) hP
  · simp only
    exact mul_le_mul_of_nonneg_left hp (mul_nonneg hA hT)

/-- C5 witness: at the default Controls, raising each of the three
fields to 2 does not decrease the rate. -/
theorem C5_witness :
    rate defaultControls ≤ rate { defaultControls with hydrogenLevel := 2 } ∧
    rate defaultControls ≤ rate { defaultControls with oxygenLevel := 2 } ∧
    rate defaultControls ≤ rate { defaultControls with pressureAtm := 2 } :=
  C5_rate_monotone defaultControls
    (by norm_num [Controls.Valid, defaultControls]) 2 2 2
    (by norm_num [defaultControls]) (by norm_num [defaultControls])
    (by norm_num [defaultControls])

/-- C9 counterexample: the first scenario's exact reaction rate is
67/60 = 1.11666..., not the stated 1.1167: the spec's figures are
rounded displays, not exact outputs. -/
theorem C9_counterexample :
    rate defaultControls ≠ 11167/10000 := by
  norm_num [rate, defaultControls]

/-- C9 amended: on the two spec scenarios the exact outputs are
67/60, 67/150, 268/15 and 59/1200, 59/4800, 59/192; each stated spec
figure agrees with the exact value only to within 0.0005 (the displayed
rounding). -/
theorem C9_scenarios_exact :
    rate defaultControls = 67/60 ∧
    current_density defaultControls = 67/150 ∧
    power defaultControls = 268/15 ∧
    rate scenario2 = 59/1200 ∧
    current_density scenario2 = 59/4800 ∧
    power scenario2 = 59/192 ∧
    |rate defaultControls - 11167/10000| < 1/2000 ∧
    |current_density defaultControls - 4467/10000| < 1/2000 ∧
    |power defaultControls - 17867/1000| < 1/2000 ∧
    |rate scenario2 - 492/10000| < 1/2000 ∧
    |current_density scenario2 - 123/10000| < 1/2000 ∧
    |power scenario2 - 3075/10000| < 1/2000 := by
  norm_num [rate, current_density, power, defaultControls, scenario2,
    max_def, abs_lt]

/-- C6: the box mesh does emit 8 vertices and 12 faces, but the face
list is defective: face 2 is the degenerate triangle (0,3,0), face 5
the degenerate (4,7,4), and no non-degenerate face has all three
vertices on the x = x0 side of the box (vertex indices 0, 3, 4, 7),
so that side is not covered at all.  Stated for the unit box; the
index lists of create_box do not depend on the bounds. -/
theorem C6_mesh_defective :
    (create_box 0 1 0 1 0 1 "c").x.length = 8 ∧
    (mesh_faces (create_box 0 1 0 1 0 1 "c")).length = 12 ∧
    (mesh_faces (create_box 0 1 0 1 0 1 "c")).get? 2 = some (0, 3, 0) ∧
    (mesh_faces (create_box 0 1 0 1 0 1 "c")).get? 5 = some (4, 7, 4) ∧
    ∀ f ∈ mesh_faces (create_box 0 1 0 1 0 1 "c"),
      ¬(f.1 ∈ ([0, 3, 4, 7] : List ℕ) ∧ f.2.1 ∈ ([0, 3, 4, 7] : List ℕ) ∧
        f.2.2 ∈ ([0, 3, 4, 7] : List ℕ) ∧
        f.1 ≠ f.2.1 ∧ f.1 ≠ f.2.2 ∧ f.2.1 ≠ f.2.2) := by
  refine ⟨rfl, rfl, rfl, rfl, ?_⟩
  decide

/-- C7 counterexample: the membrane box does not have the same
y extent as the anode: its first y vertex is -0.9 while the anode's
is -0.8. -/
theorem C7_counterexample :
    membrane.y ≠ anode.y ∧
    membrane.y.get? 0 = some (-9/10) ∧ anode.y.get? 0 = some (-8/10) := by
  refine ⟨?_, rfl, rfl⟩
  intro h
  have h0 := congrArg (fun l => l.get? 0) h
  simp only [membrane, anode, create_box, List.get?] at h0
  norm_num at h0

/-- C7 amended: the membrane box spans x in [-0.4,0.4] and shares the
anode's z extent [-0.5,0.5], but its y extent is [-0.9,0.9], slightly
larger than the anode's [-0.8,0.8]. -/
theorem C7_membrane_extents :
    membrane.x = [-4/10, 4/10, 4/10, -4/10, -4/10, 4/10, 4/10, -4/10] ∧
    membrane.y = [-9/10, -9/10, 9/10, 9/10, -9/10, -9/10, 9/10, 9/10] ∧
    membrane.z = anode.z ∧
    membrane.y ≠ anode.y := by
  refine ⟨rfl, rfl, rfl, ?_⟩
  intro h
  have h0 := congrArg (fun l => l.get? 0) h
  simp only [membrane, anode, create_box, List.get?] at h0
  norm_num at h0

/-- C10: for a non-negative particle phase and a speed factor of at
least 1, the electron wire index floor(((t*speedFactor) mod 1)*39)
is at most 39, so indexing the 40-point wire arrays stays in
bounds. -/
theorem C10_electron_idx_le (tv sf : ℚ) (_h0 : 0 ≤ tv) (_h1 : 1 ≤ sf) :
    electron_idx tv sf ≤ 39 := by
  unfold electron_idx
  have hlt : ⌊electron_ph tv sf * 39⌋ < 39 := by
    rw [Int.floor_lt]
    have := Int.fract_lt_one (tv * sf)
    unfold electron_ph pymod1
    push_cast
    nlinarith [Int.fract_nonneg (tv * sf)]
  exact Int.toNat_le.mpr (by exact_mod_cast le_of_lt hlt)

/-- C10 witness: phase 1/2 and speed factor 2 give an in-bounds
index. -/
theorem C10_witness : electron_idx (1/2) 2 ≤ 39 :=
  C10_electron_idx_le (1/2) 2 (by norm_num) (by norm_num)

/-- C3 counterexample: the oxygen cloud is drawn from the UNSEEDED
global NumPy stream (src lines 98-100 run before the Controls-derived
seed of line 137 is even computed, and that seed feeds a separate
RandomState used only for t_shift).  Two runs with identical Controls
but different global-stream draws give different clouds: with draws
all 0 versus all 1 the first cloud point differs. -/
theorem C3_counterexample :
    (buildScene (fun _ => 0) (fun _ => 0) defaultControls).oxygen ≠
      (buildScene (fun _ => 0) (fun _ => 1) defaultControls).oxygen := by
  intro h
  have h0 := congrArg (fun l => l.get? 0) h
  simp only [buildScene, ox_cloud, List.get?_map, List.get?_range,
    Nat.zero_lt_succ, List.range_succ_eq_map, List.get?] at h0
  norm_num at h0

/-- C3 amended: the electron and proton coordinates of the built scene
are identical across any two runs with identical Controls (the phase
shift is drawn from a RandomState seeded deterministically from the
Controls, so it does not vary with the global stream); the oxygen
cloud, drawn from the unseeded global stream, is the one part that
need not repeat. -/
theorem C3_particles_deterministic (rand0 : ℤ → ℚ) (g1 g2 : ℕ → ℚ)
    (c : Controls) :
    (buildScene rand0 g1 c).electrons = (buildScene rand0 g2 c).electrons ∧
    (buildScene rand0 g1 c).protons = (buildScene rand0 g2 c).protons :=
  ⟨rfl, rfl⟩

/-- C8 amended: each proton position is the piecewise-linear
interpolation of the UNSCALED wrapped phase (t + t_shift) mod 1 over
the 40-point straight channel — which, the channel tables being affine
in the index, is exactly x = -0.4 + 0.8*phase, y = 0,
z = -0.3 + 0.6*phase: continuous and not index-snapped, but not the
electron-speed-scaled phases the electrons use. -/
theorem C8_protons_unscaled_affine (rand0 : ℤ → ℚ) (g : ℕ → ℚ)
    (c : Controls) (k : ℕ) (hk : k < 12) :
    (buildScene rand0 g c).protons.get? k =
      some (-4/10 + (8/10) * pymod1 (particle_t k + t_shift rand0 c), 0,
            -3/10 + (6/10) * pymod1 (particle_t k + t_shift rand0 c)) := by
  have hx : np_interp proton_x 40 (pymod1 (particle_t k + t_shift rand0 c)) =
      -4/10 + (8/10) * pymod1 (particle_t k + t_shift rand0 c) := by
    have := np_interp_affine proton_x (-4/10) (4/10)
      (pymod1 (particle_t k + t_shift rand0 c))
      (fun idx => by simp [proton_x, linspace]; ring)
      (Int.fract_nonneg _) (Int.fract_lt_one _)
    rw [this]; ring
  have hy : np_interp proton_y 40 (pymod1 (particle_t k + t_shift rand0 c)) =
      0 := by
    have := np_interp_affine proton_y 0 0
      (pymod1 (particle_t k + t_shift rand0 c))
      (fun idx => by simp [proton_y])
      (Int.fract_nonneg _) (Int.fract_lt_one _)
    rw [this]; ring
  have hz : np_interp proton_z 40 (pymod1 (particle_t k + t_shift rand0 c)) =
      -3/10 + (6/10) * pymod1 (particle_t k + t_shift rand0 c) := by
    have := np_interp_affine proton_z (-3/10) (3/10)
      (pymod1 (particle_t k + t_shift rand0 c))
      (fun idx => by simp [proton_z, linspace]; ring)
      (Int.fract_nonneg _) (Int.fract_lt_one _)
    rw [this]; ring
  simp only [buildScene, List.get?_map, List.get?_range hk, Option.map_some']
  rw [hx, hy, hz]

/-- C8 counterexample: the protons are NOT placed at the electrons'
wrapped phases.  At the default Controls with a zero RandomState draw,
particle 1 has unscaled phase 1/12 (proton x = -1/3) while its
electron-speed-scaled phase is 307/720 (claimed proton x = -53/900):
the code interpolates the unscaled phase, the claim the scaled one. -/
theorem C8_counterexample :
    (buildScene (fun _ => 0) (fun _ => 0) defaultControls).protons ≠
      protons_claimC8 (fun _ => 0) defaultControls := by
  intro h
  have hfp : ∀ idx : ℕ,
      proton_x idx = -4/10 + (4/10 - (-4/10)) * idx / 39 := fun idx => by
    simp [proton_x, linspace]; ring
  have hts : t_shift (fun _ => 0) defaultControls = 0 := by
    simp [t_shift]
  have hph1 : pymod1 (particle_t 1 + t_shift (fun _ => 0) defaultControls) =
      1/12 := by
    rw [hts]
    unfold pymod1 particle_t
    rw [Int.fract]
    norm_num
  have hes : electron_speed defaultControls = 307/60 := by
    simp [electron_speed, rate, defaultControls]
    norm_num
  have hph2 : electron_ph (1/12) (307/60) = 307/720 := by
    unfold electron_ph pymod1
    rw [Int.fract]
    norm_num
  have hfpy : ∀ idx : ℕ, proton_y idx = 0 + (0 - 0) * idx / 39 :=
    fun idx => by simp [proton_y]
  have hfpz : ∀ idx : ℕ,
      proton_z idx = -3/10 + (3/10 - (-3/10)) * idx / 39 := fun idx => by
    simp [proton_z, linspace]; ring
  have hL : np_interp proton_x 40 (1/12) = -1/3 := by
    rw [np_interp_affine proton_x (-4/10) (4/10) (1/12) hfp
      (by norm_num) (by norm_num)]
    norm_num
  have hLy : np_interp proton_y 40 (1/12) = 0 := by
    rw [np_interp_affine proton_y 0 0 (1/12) hfpy
      (by norm_num) (by norm_num)]
    norm_num
  have hLz : np_interp proton_z 40 (1/12) = -1/4 := by
    rw [np_interp_affine proton_z (-3/10) (3/10) (1/12) hfpz
      (by norm_num) (by norm_num)]
    norm_num
  have hR : np_interp proton_x 40 (307/720) = -53/900 := by
    rw [np_interp_affine proton_x (-4/10) (4/10) (307/720) hfp
      (by norm_num) (by norm_num)]
    norm_num
  have hRy : np_interp proton_y 40 (307/720) = 0 := by
    rw [np_interp_affine proton_y 0 0 (307/720) hfpy
      (by norm_num) (by norm_num)]
    norm_num
  have hRz : np_interp proton_z 40 (307/720) = -53/1200 := by
    rw [np_interp_affine proton_z (-3/10) (3/10) (307/720) hfpz
      (by norm_num) (by norm_num)]
    norm_num
  have hcode : (buildScene (fun _ => 0) (fun _ => 0)
      defaultControls).protons.get? 1 = some (-1/3, 0, -1/4) := by
    simp only [buildScene, List.get?_map,
      List.get?_range (show (1:ℕ) < 12 by norm_num), Option.map_some']
    rw [hph1, hL, hLy, hLz]
  have hclaim : (protons_claimC8 (fun _ => 0) defaultControls).get? 1 =
      some (-53/900, 0, -53/1200) := by
    simp only [protons_claimC8, List.get?_map,
      List.get?_range (show (1:ℕ) < 12 by norm_num), Option.map_some']
    rw [hph1, hes, hph2, hR, hRy, hRz]
  have h1 : (buildScene (fun _ => 0) (fun _ => 0)
      defaultControls).protons.get? 1 =
      (protons_claimC8 (fun _ => 0) defaultControls).get? 1 := by rw [h]
  rw [hcode, hclaim] at h1
  norm_num [Prod.mk.injEq] at h1

/-- C8 witness: particle 0 at the default Controls with a zero
RandomState draw. -/
theorem C8_witness :
    (buildScene (fun _ => 0) (fun _ => 0) defaultControls).protons.get? 0 =
      some (-4/10 + (8/10) *
              pymod1 (particle_t 0 + t_shift (fun _ => 0) defaultControls), 0,
            -3/10 + (6/10) *
              pymod1 (particle_t 0 + t_shift (fun _ => 0) defaultControls)) :=
  C8_protons_unscaled_affine (fun _ => 0) (fun _ => 0) defaultControls 0
    (by norm_num)

end FuelCell
